import Mathlib

/-! Overview.
Verification development for the trxgo transaction ledger.

Shallow embedding of the core layers (internal/models, internal/services,
internal/repositories, internal/handlers). The repository (storage) layer is
modelled two ways:
* as an oracle (`Repo`): each storage operation is an arbitrary function
  returning a result or an error, so theorems quantify over every possible
  storage behaviour; service functions additionally return the exact list of
  storage calls they issued (`RepoCall`), which makes "issues zero storage
  calls" and call-order properties statable;
* as executable SQL semantics over an in-memory table (`List Transaction`)
  for the repository methods whose own logic the claims are about
  (`GetAll` clamping, `GetAveragePerUser`, `Update`, `GetStatusCounts`).

Go `error` values are modelled as `Except String`; the gorm
`ErrRecordNotFound` sentinel that `GetByID` can return is modelled by the
dedicated constructor `RepoError.recordNotFound`. `fmt.Errorf("...: %v", err)`
wrapping is modelled by string concatenation with the same prefix text.
`decimal.Decimal` amounts are modelled as exact rationals (`Rat`).
-/

namespace Trxgo

/-- internal/models/transaction.go: `Transaction` (id, user_id, amount,
status, created_at, updated_at); timestamps are abstracted as `Nat`. -/
structure Transaction where
  id : Nat
  userId : Nat
  amount : Rat
  status : String
  createdAt : Nat
  updatedAt : Nat
deriving Repr, DecidableEq

/-- internal/models/transaction.go: `TransactionFilters` (user_id, status,
limit, offset); `limit` and `offset` are Go `int`, modelled as `Int`. -/
structure TransactionFilters where
  userId : Nat
  status : String
  limit : Int
  offset : Int
deriving Repr, DecidableEq

/-- internal/models/transaction.go: `CreateTransactionRequest`
(user_id, amount) — note: no status field. -/
structure CreateTransactionRequest where
  userId : Nat
  amount : Rat
deriving Repr, DecidableEq

/-- internal/models/transaction.go: `StatusCounts`. -/
structure StatusCounts where
  success : Nat
  pending : Nat
  failed : Nat
deriving Repr, DecidableEq

/-- internal/models/transaction.go: `DashboardSummary`. -/
structure DashboardSummary where
  todaySuccessfulTransactions : Nat
  todaySuccessfulAmount : Rat
  averageTransactionPerUser : Rat
  latestTransactions : List Transaction
  statusCounts : StatusCounts
deriving Repr, DecidableEq

/-- Error returned by the storage layer to the service layer:
`recordNotFound` models gorm.ErrRecordNotFound (matched by the service with
`errors.Is`), `other` models any other storage error (its message). -/
inductive RepoError where
  | recordNotFound
  | other (msg : String)
deriving Repr, DecidableEq

/-- A storage call issued by a service, recorded with its arguments.
Mirrors the methods of `repositories.TransactionRepository`. -/
inductive RepoCall where
  | create (tx : Transaction)
  | getByID (id : Nat)
  | getAll (filters : TransactionFilters)
  | update (id : Nat) (updates : List (String × String))
  | delete (id : Nat)
  | getTodaySuccessful
  | getAveragePerUser
  | getLatest (limit : Nat)
  | getStatusCounts
deriving Repr, DecidableEq

/-- Oracle model of `repositories.TransactionRepository`: each operation may
return any result or fail in any way. `createAssign` models gorm `Create`
filling in the auto-assigned id and the created_at/updated_at timestamps of
the inserted row. -/
structure Repo where
  createAssign : Transaction → Except String (Nat × Nat × Nat)
  getByID : Nat → Except RepoError Transaction
  getAll : TransactionFilters → Except String (List Transaction)
  update : Nat → List (String × String) → Except String Unit
  delete : Nat → Except String Unit
  getTodaySuccessful : Except String (Nat × Rat)
  getAveragePerUser : Except String Rat
  getLatest : Nat → Except String (List Transaction)
  getStatusCounts : Except String StatusCounts

/-- internal/services/transaction.go, CreateTransaction lines 34-38: the
transaction literal built from the request, with `Status: "pending"` and the
zero values for the store-assigned fields. -/
def buildCreateTx (req : CreateTransactionRequest) : Transaction :=
  { id := 0, userId := req.userId, amount := req.amount, status := "pending",
    createdAt := 0, updatedAt := 0 }

/-- internal/services/transaction.go: `transactionService.CreateTransaction`.
Returns the service result paired with the exact trace of storage calls. -/
def createTransaction (repo : Repo) (req : CreateTransactionRequest) :
    Except String Transaction × List RepoCall :=
  let tx := buildCreateTx req
  match repo.createAssign tx with
  | .ok (i, c, u) =>
      (.ok { tx with id := i, createdAt := c, updatedAt := u },
       [RepoCall.create tx])
  | .error e =>
      (.error ("failed to create transaction: " ++ e), [RepoCall.create tx])

/-- internal/services/transaction.go: `transactionService.GetTransaction`. -/
def getTransaction (repo : Repo) (id : Nat) :
    Except String Transaction × List RepoCall :=
  match repo.getByID id with
  | .ok t => (.ok t, [RepoCall.getByID id])
  | .error .recordNotFound =>
      (.error ("transaction not found"), [RepoCall.getByID id])
  | .error (.other e) =>
      (.error ("failed to get transaction: " ++ e), [RepoCall.getByID id])

/-- internal/services/transaction.go: `transactionService.GetTransactions`:
validates the status filter before any storage access, then delegates to
`GetAll`. -/
def getTransactions (repo : Repo) (filters : TransactionFilters) :
    Except String (List Transaction) × List RepoCall :=
  if filters.status != "" && filters.status != "pending" &&
      filters.status != "success" && filters.status != "failed" then
    (.error ("invalid status filter"), [])
  else
    match repo.getAll filters with
    | .ok ts => (.ok ts, [RepoCall.getAll filters])
    | .error e =>
        (.error ("failed to get transactions: " ++ e), [RepoCall.getAll filters])

/-- internal/services/transaction.go:
`transactionService.UpdateTransactionStatus`: validates the status, checks
existence via `GetByID`, then issues `Update` with the single-field map
`{"status": status}`. -/
def updateTransactionStatus (repo : Repo) (id : Nat) (status : String) :
    Except String Unit × List RepoCall :=
  if status != "pending" && status != "success" && status != "failed" then
    (.error ("invalid status"), [])
  else
    match repo.getByID id with
    | .error .recordNotFound =>
        (.error ("transaction not found"), [RepoCall.getByID id])
    | .error (.other e) =>
        (.error ("failed to get transaction: " ++ e), [RepoCall.getByID id])
    | .ok _ =>
        match repo.update id [("status", status)] with
        | .ok _ =>
            (.ok (), [RepoCall.getByID id, RepoCall.update id [("status", status)]])
        | .error e =>
            (.error ("failed to update transaction: " ++ e),
             [RepoCall.getByID id, RepoCall.update id [("status", status)]])

/-- internal/services/transaction.go: `transactionService.DeleteTransaction`:
checks existence via `GetByID`, then issues `Delete`. -/
def deleteTransaction (repo : Repo) (id : Nat) :
    Except String Unit × List RepoCall :=
  match repo.getByID id with
  | .error .recordNotFound =>
      (.error ("transaction not found"), [RepoCall.getByID id])
  | .error (.other e) =>
      (.error ("failed to get transaction: " ++ e), [RepoCall.getByID id])
  | .ok _ =>
      match repo.delete id with
      | .ok _ => (.ok (), [RepoCall.getByID id, RepoCall.delete id])
      | .error e =>
          (.error ("failed to delete transaction: " ++ e),
           [RepoCall.getByID id, RepoCall.delete id])

/-- Error returned by `dashboardService.GetSummary`
(internal/services/dashboard.go): each constructor models the
`fmt.Errorf` wrapper identifying which underlying aggregate query failed,
carrying the wrapped storage-error message. -/
inductive SummaryError where
  | todaySuccessful (msg : String)
  | averagePerUser (msg : String)
  | latestTransactions (msg : String)
  | statusCounts (msg : String)
deriving Repr, DecidableEq

/-- internal/services/dashboard.go: `dashboardService.GetSummary`: the four
aggregate queries in source order, short-circuiting on the first failure,
with the latest-transactions fetch size fixed at 10. -/
def getSummary (repo : Repo) : Except SummaryError DashboardSummary × List RepoCall :=
  match repo.getTodaySuccessful with
  | .error e => (.error (.todaySuccessful e), [RepoCall.getTodaySuccessful])
  | .ok (todayCount, todayAmount) =>
    match repo.getAveragePerUser with
    | .error e =>
        (.error (.averagePerUser e),
         [RepoCall.getTodaySuccessful, RepoCall.getAveragePerUser])
    | .ok avgPerUser =>
      match repo.getLatest 10 with
      | .error e =>
          (.error (.latestTransactions e),
           [RepoCall.getTodaySuccessful, RepoCall.getAveragePerUser,
            RepoCall.getLatest 10])
      | .ok latest =>
        match repo.getStatusCounts with
        | .error e =>
            (.error (.statusCounts e),
             [RepoCall.getTodaySuccessful, RepoCall.getAveragePerUser,
              RepoCall.getLatest 10, RepoCall.getStatusCounts])
        | .ok counts =>
            (.ok { todaySuccessfulTransactions := todayCount,
                   todaySuccessfulAmount := todayAmount,
                   averageTransactionPerUser := avgPerUser,
                   latestTransactions := latest,
                   statusCounts := counts },
             [RepoCall.getTodaySuccessful, RepoCall.getAveragePerUser,
              RepoCall.getLatest 10, RepoCall.getStatusCounts])

/-! Repository SQL semantics over an in-memory table

The gorm queries of src/internal/repositories (file `transaction.go`,
provided unnamed) are given executable semantics over a table modelled as a
`List Transaction`. -/

/-- The conjunctive WHERE clause built by `transactionRepository.GetAll`:
`user_id = ?` is added only when `filters.UserID != 0`, `status = ?` only
when `filters.Status != ""`. -/
def matchesFilters (f : TransactionFilters) (t : Transaction) : Bool :=
  (f.userId == 0 || t.userId == f.userId) && (f.status == "" || t.status == f.status)

/-- Insert a transaction into a list sorted by `created_at` descending. -/
def insertByCreatedAtDesc (t : Transaction) : List Transaction → List Transaction
  | [] => [t]
  | x :: xs =>
      if t.createdAt ≤ x.createdAt then x :: insertByCreatedAtDesc t xs
      else t :: x :: xs

/-- `ORDER BY created_at DESC` as an insertion sort. -/
def orderByCreatedAtDesc : List Transaction → List Transaction
  | [] => []
  | x :: xs => insertByCreatedAtDesc x (orderByCreatedAtDesc xs)

/-- `transactionRepository.GetAll` limit normalization: `limit == 0` or
`limit > 100` is reset to the default 20; every other value (negative values
included) is passed through unchanged. -/
def effectiveLimit (l : Int) : Int :=
  if l == 0 || l > 100 then 20 else l

/-- `transactionRepository.GetAll` offset normalization: negative offsets
are reset to 0. -/
def effectiveOffset (o : Int) : Int :=
  if o < 0 then 0 else o

/-- gorm `Limit(l)` semantics: the LIMIT clause is emitted only for a
non-negative argument; a negative limit leaves the row set uncapped. -/
def applyLimitClause (l : Int) (rows : List Transaction) : List Transaction :=
  if l < 0 then rows else rows.take l.toNat

/-- gorm `Offset(o)` semantics: skip the first `o` rows (the argument is
non-negative here, the repository has already clamped it). -/
def applyOffsetClause (o : Int) (rows : List Transaction) : List Transaction :=
  rows.drop o.toNat

/-- `transactionRepository.GetAll`: filter, order by `created_at DESC`,
then apply the clamped offset and limit. -/
def getAllRepo (tbl : List Transaction) (f : TransactionFilters) : List Transaction :=
  applyLimitClause (effectiveLimit f.limit)
    (applyOffsetClause (effectiveOffset f.offset)
      (orderByCreatedAtDesc (tbl.filter (matchesFilters f))))

/-- `transactionRepository.Update`: gorm `Updates` with a column map sets
exactly the named columns of the matching row; a `"status"` entry sets the
status column. gorm additionally refreshes `updated_at` on the touched row. -/
def applyUpdateField (t : Transaction) (kv : String × String) : Transaction :=
  if kv.1 == "status" then { t with status := kv.2 } else t

/-- Apply a whole column map to one row, then set `updated_at` to the
update time. -/
def applyUpdateFields (t : Transaction) (updates : List (String × String))
    (now : Nat) : Transaction :=
  { updates.foldl applyUpdateField t with updatedAt := now }

/-- `transactionRepository.Update` table semantics:
`UPDATE ... WHERE id = ?` touches exactly the rows with the given id. -/
def updateRepo (tbl : List Transaction) (id : Nat)
    (updates : List (String × String)) (now : Nat) : List Transaction :=
  tbl.map (fun t => if t.id == id then applyUpdateFields t updates now else t)

/-- The distinct user ids of the table (SQL `GROUP BY user_id` groups). -/
def userIds (tbl : List Transaction) : List Nat :=
  (tbl.map Transaction.userId).dedup

/-- `COUNT(*)` of the group of one user. -/
def userTransactionCount (tbl : List Transaction) (u : Nat) : Nat :=
  (tbl.filter (fun t => t.userId == u)).length

/-- `transactionRepository.GetAveragePerUser`: the raw SQL
`SELECT COALESCE(AVG(user_transaction_count), 0) FROM (SELECT user_id,
COUNT(*) ... GROUP BY user_id)`: the exact mean of the per-user group
counts, 0 when there are no groups. -/
def getAveragePerUserRepo (tbl : List Transaction) : Rat :=
  let counts := (userIds tbl).map (fun u => (userTransactionCount tbl u : Rat))
  if counts.length = 0 then 0 else counts.sum / (counts.length : Rat)

/-- Modelled from the spec (refinement reference for the claim about
`GetAveragePerUser`): total row count divided by distinct user count, 0 for
the empty table. -/
def averagePerUserSpec (tbl : List Transaction) : Rat :=
  if tbl.length = 0 then 0
  else (tbl.length : Rat) / ((userIds tbl).length : Rat)

/-- The four underlying queries `transactionRepository.GetStatusCounts`
issues, each allowed to fail independently: the grouped scan whose result is
discarded, then one `COUNT` per status. -/
structure StatusCountsQueries where
  groupScan : Except String Unit
  countSuccess : Except String Nat
  countPending : Except String Nat
  countFailed : Except String Nat

/-- gorm `Count(&n)` with its returned error discarded: on failure the
count variable keeps its zero value. -/
def countOrZero (r : Except String Nat) : Nat :=
  match r with
  | .ok n => n
  | .error _ => 0

/-- `transactionRepository.GetStatusCounts`: the error of the initial
grouped scan is checked and propagated, but the three per-status `Count`
calls discard their errors (the source never reads their `.Error`), so
their failures leave zero counts and the function still returns success. -/
def getStatusCountsRepo (q : StatusCountsQueries) : Except String StatusCounts :=
  match q.groupScan with
  | .error e => .error e
  | .ok _ =>
      .ok { success := countOrZero q.countSuccess,
            pending := countOrZero q.countPending,
            failed := countOrZero q.countFailed }

/-! Handler layer -/

/-- HTTP statuses produced by pkg/utils/response.go helpers. -/
inductive HttpStatus where
  | ok200
  | created201
  | badRequest400
  | notFound404
  | internalError500
deriving Repr, DecidableEq

/-- internal/handlers/transaction.go: `TransactionHandler.GetTransactions`
after successful query binding: every service error is answered with
`BadRequestResponse` (400), a success with `SuccessResponse` (200). -/
def handlerGetTransactions (repo : Repo) (filters : TransactionFilters) : HttpStatus :=
  match (getTransactions repo filters).1 with
  | .ok _ => HttpStatus.ok200
  | .error _ => HttpStatus.badRequest400

/-! Concrete repositories used to instantiate the theorems -/

/-- A concrete repository whose `GetByID` reports not-found and whose other
operations succeed with simple values. -/
def stubRepo : Repo where
  createAssign := fun _ => .ok (1, 5, 5)
  getByID := fun _ => .error .recordNotFound
  getAll := fun _ => .ok []
  update := fun _ _ => .ok ()
  delete := fun _ => .ok ()
  getTodaySuccessful := .ok (0, 0)
  getAveragePerUser := .ok 0
  getLatest := fun _ => .ok []
  getStatusCounts := .ok { success := 0, pending := 0, failed := 0 }

/-- A concrete repository whose initial dashboard aggregate fails. -/
def summaryFailRepo : Repo :=
  { stubRepo with getTodaySuccessful := .error ("db down") }

/-- A concrete repository whose `GetAll` fails with a storage error. -/
def listFailRepo : Repo :=
  { stubRepo with getAll := fun _ => .error ("connection lost") }

/-- A sample stored transaction with status "success". -/
def txEx : Transaction :=
  { id := 9, userId := 4, amount := 3, status := "success",
    createdAt := 1, updatedAt := 1 }

/-- A concrete repository whose `GetByID` finds `txEx`. -/
def okRepo : Repo :=
  { stubRepo with getByID := fun _ => .ok txEx }

/-- A sample row used to populate concrete tables. -/
def mkTx (i : Nat) : Transaction :=
  { id := i, userId := i, amount := 1, status := "pending",
    createdAt := i, updatedAt := i }

/-- A concrete table of 25 rows (more rows than the default page size). -/
def tbl25 : List Transaction :=
  (List.range 25).map mkTx

/-! Theorems -/

/-- C1: For every creation request (any user_id and amount), the transaction
the service constructs has status "pending" — the request carries no status
field — and on store success `CreateTransaction` returns that transaction
(with the store-assigned id and timestamps), having issued exactly the one
`Create` call. -/
theorem createTransaction_forces_pending (repo : Repo)
    (req : CreateTransactionRequest) :
    (buildCreateTx req).status = "pending" ∧
    ∀ i c u, repo.createAssign (buildCreateTx req) = .ok (i, c, u) →
      createTransaction repo req =
        (.ok { id := i, userId := req.userId, amount := req.amount,
               status := "pending", createdAt := c, updatedAt := u },
         [RepoCall.create (buildCreateTx req)]) := by
  refine ⟨rfl, ?_⟩
  intro i c u h
  simp only [buildCreateTx] at h
  simp [createTransaction, buildCreateTx, h]

/-- C1 witness: a concrete request with user_id 7 and amount 100.50 stored
through `stubRepo` comes back with status "pending". -/
theorem createTransaction_forces_pending_witness :
    createTransaction stubRepo { userId := 7, amount := (201 : Rat) / 2 } =
      (.ok { id := 1, userId := 7, amount := (201 : Rat) / 2,
             status := "pending", createdAt := 5, updatedAt := 5 },
       [RepoCall.create (buildCreateTx { userId := 7, amount := (201 : Rat) / 2 })]) :=
  (createTransaction_forces_pending stubRepo
    { userId := 7, amount := (201 : Rat) / 2 }).2 1 5 5 rfl

/-- C2: For every status string outside {"pending", "success", "failed"},
`GetTransactions` (with that string as a non-empty status filter) and
`UpdateTransactionStatus` (with that string as the new status, any id) both
return the validation error, and the storage-call trace is empty: no GetAll,
no GetByID, no Update. -/
theorem invalidStatus_rejected_no_storage (repo : Repo)
    (f : TransactionFilters) (id : Nat)
    (h1 : f.status ≠ "pending") (h2 : f.status ≠ "success")
    (h3 : f.status ≠ "failed") :
    (f.status ≠ "" → getTransactions repo f = (.error ("invalid status filter"), [])) ∧
    updateTransactionStatus repo id f.status = (.error ("invalid status"), []) := by
  constructor
  · intro h0
    simp [getTransactions, h0, h1, h2, h3]
  · simp [updateTransactionStatus, h1, h2, h3]

/-- C2 witness: the status string "bogus" is rejected by both paths with an
empty storage trace. -/
theorem invalidStatus_rejected_no_storage_witness :
    getTransactions stubRepo { userId := 0, status := "bogus", limit := 0, offset := 0 } =
      (.error ("invalid status filter"), []) ∧
    updateTransactionStatus stubRepo 3 ("bogus") = (.error ("invalid status"), []) := by
  have h := invalidStatus_rejected_no_storage stubRepo
    { userId := 0, status := "bogus", limit := 0, offset := 0 } 3
    (by decide) (by decide) (by decide)
  exact ⟨h.1 (by decide), h.2⟩

/-- C3: Whenever `GetByID` reports not-found, `DeleteTransaction` and
`UpdateTransactionStatus` (with a valid status) return the not-found domain
error with a trace containing only the `GetByID` read — no `Delete` and no
`Update` call is issued, so the store is unchanged on this path. -/
theorem notFound_shortCircuits_mutation (repo : Repo) (id : Nat) (s : String)
    (hnf : repo.getByID id = .error .recordNotFound)
    (hs : s = "pending" ∨ s = "success" ∨ s = "failed") :
    deleteTransaction repo id =
      (.error ("transaction not found"), [RepoCall.getByID id]) ∧
    updateTransactionStatus repo id s =
      (.error ("transaction not found"), [RepoCall.getByID id]) := by
  constructor
  · simp [deleteTransaction, hnf]
  · rcases hs with h | h | h <;> subst h <;> simp [updateTransactionStatus, hnf]

/-- C3 witness: deleting or updating id 42 against `stubRepo` (whose
`GetByID` always reports not-found) yields the not-found error and only the
read call. -/
theorem notFound_shortCircuits_mutation_witness :
    deleteTransaction stubRepo 42 =
      (.error ("transaction not found"), [RepoCall.getByID 42]) ∧
    updateTransactionStatus stubRepo 42 ("success") =
      (.error ("transaction not found"), [RepoCall.getByID 42]) :=
  notFound_shortCircuits_mutation stubRepo 42 ("success") rfl (Or.inr (Or.inl rfl))

/-- C5: `GetSummary` issues the four aggregate queries in the fixed order
GetTodaySuccessful, GetAveragePerUser, GetLatest(10), GetStatusCounts; on the
first failure it returns an error naming that query and the trace stops
there (later queries are never issued, never a partial summary); on full
success it returns the composite of the four results, with the latest fetch
size fixed at 10. -/
theorem getSummary_order_shortCircuit (repo : Repo) :
    (∀ e, repo.getTodaySuccessful = .error e →
        getSummary repo =
          (.error (.todaySuccessful e), [RepoCall.getTodaySuccessful])) ∧
    (∀ c a e, repo.getTodaySuccessful = .ok (c, a) →
        repo.getAveragePerUser = .error e →
        getSummary repo =
          (.error (.averagePerUser e),
           [RepoCall.getTodaySuccessful, RepoCall.getAveragePerUser])) ∧
    (∀ c a v e, repo.getTodaySuccessful = .ok (c, a) →
        repo.getAveragePerUser = .ok v → repo.getLatest 10 = .error e →
        getSummary repo =
          (.error (.latestTransactions e),
           [RepoCall.getTodaySuccessful, RepoCall.getAveragePerUser,
            RepoCall.getLatest 10])) ∧
    (∀ c a v l e, repo.getTodaySuccessful = .ok (c, a) →
        repo.getAveragePerUser = .ok v → repo.getLatest 10 = .ok l →
        repo.getStatusCounts = .error e →
        getSummary repo =
          (.error (.statusCounts e),
           [RepoCall.getTodaySuccessful, RepoCall.getAveragePerUser,
            RepoCall.getLatest 10, RepoCall.getStatusCounts])) ∧
    (∀ c a v l sc, repo.getTodaySuccessful = .ok (c, a) →
        repo.getAveragePerUser = .ok v → repo.getLatest 10 = .ok l →
        repo.getStatusCounts = .ok sc →
        getSummary repo =
          (.ok { todaySuccessfulTransactions := c, todaySuccessfulAmount := a,
                 averageTransactionPerUser := v, latestTransactions := l,
                 statusCounts := sc },
           [RepoCall.getTodaySuccessful, RepoCall.getAveragePerUser,
            RepoCall.getLatest 10, RepoCall.getStatusCounts])) := by
  refine ⟨?_, ?_, ?_, ?_, ?_⟩
  · intro e h1
    simp [getSummary, h1]
  · intro c a e h1 h2
    simp [getSummary, h1, h2]
  · intro c a v e h1 h2 h3
    simp [getSummary, h1, h2, h3]
  · intro c a v l e h1 h2 h3 h4
    simp [getSummary, h1, h2, h3, h4]
  · intro c a v l sc h1 h2 h3 h4
    simp [getSummary, h1, h2, h3, h4]

/-- C5 witness: against `summaryFailRepo` the first query fails and the
trace is a single call; against `stubRepo` all four succeed and the
composite summary is returned after exactly the four calls in order. -/
theorem getSummary_order_shortCircuit_witness :
    getSummary summaryFailRepo =
      (.error (.todaySuccessful ("db down")), [RepoCall.getTodaySuccessful]) ∧
    getSummary stubRepo =
      (.ok { todaySuccessfulTransactions := 0, todaySuccessfulAmount := 0,
             averageTransactionPerUser := 0, latestTransactions := [],
             statusCounts := { success := 0, pending := 0, failed := 0 } },
       [RepoCall.getTodaySuccessful, RepoCall.getAveragePerUser,
        RepoCall.getLatest 10, RepoCall.getStatusCounts]) :=
  ⟨(getSummary_order_shortCircuit summaryFailRepo).1 ("db down") rfl,
   (getSummary_order_shortCircuit stubRepo).2.2.2.2 0 0 0 []
     { success := 0, pending := 0, failed := 0 } rfl rfl rfl rfl⟩

/-- C8: the list handler maps every service error — the status-filter
validation error as well as wrapped storage errors — to 400 and never
answers 500. -/
theorem handlerGetTransactions_maps_errors_to_400 (repo : Repo)
    (f : TransactionFilters) :
    (∀ e, (getTransactions repo f).1 = .error e →
        handlerGetTransactions repo f = HttpStatus.badRequest400) ∧
    handlerGetTransactions repo f ≠ HttpStatus.internalError500 := by
  constructor
  · intro e he
    simp [handlerGetTransactions, he]
  · unfold handlerGetTransactions
    cases (getTransactions repo f).1 <;> simp

/-- C8 witness: both a validation failure (status filter "weird") and a
storage failure (`listFailRepo`) are answered with 400. -/
theorem handlerGetTransactions_maps_errors_to_400_witness :
    handlerGetTransactions stubRepo
      { userId := 0, status := "weird", limit := 0, offset := 0 } =
      HttpStatus.badRequest400 ∧
    handlerGetTransactions listFailRepo
      { userId := 0, status := "", limit := 0, offset := 0 } =
      HttpStatus.badRequest400 :=
  ⟨(handlerGetTransactions_maps_errors_to_400 stubRepo
      { userId := 0, status := "weird", limit := 0, offset := 0 }).1
      ("invalid status filter") rfl,
   (handlerGetTransactions_maps_errors_to_400 listFailRepo
      { userId := 0, status := "", limit := 0, offset := 0 }).1
      ("failed to get transactions: connection lost") rfl⟩

/-- C6 (code bug evaluation): `GetStatusCounts` does not propagate a
failure of its per-status count queries. With the grouped scan succeeding
and the success-status count query failing, the repository still returns
success, with a zero success count. -/
theorem getStatusCounts_swallows_count_errors :
    getStatusCountsRepo
      { groupScan := .ok (), countSuccess := .error ("count query failed"),
        countPending := .ok 5, countFailed := .ok 7 } =
      .ok { success := 0, pending := 5, failed := 7 } := rfl

/-- A non-negative LIMIT caps the row count. -/
theorem length_applyLimitClause_le (l : Int) (rows : List Transaction)
    (h : 0 ≤ l) : (applyLimitClause l rows).length ≤ l.toNat := by
  unfold applyLimitClause
  rw [if_neg (by omega)]
  exact List.length_take_le _ _

/-- C4: `GetAll` resets the limit to 20 whenever it is 0 or above 100 (so
at most 20 rows come back, not 100), keeps a limit between 1 and 100 as
given (capping the rows at that limit), and clamps a negative offset to 0
(the query behaves exactly as with offset 0). -/
theorem getAll_clamps (tbl : List Transaction) (f : TransactionFilters) :
    ((f.limit = 0 ∨ 100 < f.limit) →
        effectiveLimit f.limit = 20 ∧ (getAllRepo tbl f).length ≤ 20) ∧
    (1 ≤ f.limit → f.limit ≤ 100 →
        effectiveLimit f.limit = f.limit ∧
        (getAllRepo tbl f).length ≤ f.limit.toNat) ∧
    (f.offset < 0 →
        effectiveOffset f.offset = 0 ∧
        getAllRepo tbl f = getAllRepo tbl { f with offset := 0 }) := by
  refine ⟨?_, ?_, ?_⟩
  · intro h
    have he : effectiveLimit f.limit = 20 := by
      unfold effectiveLimit
      rcases h with h | h <;> simp [h]
    refine ⟨he, ?_⟩
    unfold getAllRepo
    rw [he]
    exact length_applyLimitClause_le 20 _ (by norm_num)
  · intro h1 h2
    have he : effectiveLimit f.limit = f.limit := by
      unfold effectiveLimit
      split
      · rename_i hc
        exfalso
        simp at hc
        omega
      · rfl
    refine ⟨he, ?_⟩
    unfold getAllRepo
    rw [he]
    exact length_applyLimitClause_le f.limit _ (by omega)
  · intro h
    have ho : effectiveOffset f.offset = 0 := by
      unfold effectiveOffset
      rw [if_pos h]
    refine ⟨ho, ?_⟩
    unfold getAllRepo
    rw [ho]
    rfl

/-- C4 witness: on a 25-row table, limit 150 returns at most 20 rows (and
the effective limit is 20, not 100), limit 7 returns at most 7 rows, and
offset -5 behaves as offset 0. -/
theorem getAll_clamps_witness :
    effectiveLimit 150 = 20 ∧
    (getAllRepo tbl25
      { userId := 0, status := "", limit := 150, offset := 0 }).length ≤ 20 ∧
    (getAllRepo tbl25
      { userId := 0, status := "", limit := 7, offset := 0 }).length ≤ 7 ∧
    getAllRepo tbl25 { userId := 0, status := "", limit := 0, offset := -5 } =
      getAllRepo tbl25 { userId := 0, status := "", limit := 0, offset := 0 } :=
  ⟨((getAll_clamps tbl25
      { userId := 0, status := "", limit := 150, offset := 0 }).1
      (Or.inr (by norm_num))).1,
   ((getAll_clamps tbl25
      { userId := 0, status := "", limit := 150, offset := 0 }).1
      (Or.inr (by norm_num))).2,
   ((getAll_clamps tbl25
      { userId := 0, status := "", limit := 7, offset := 0 }).2.1
      (by norm_num) (by norm_num)).2,
   ((getAll_clamps tbl25
      { userId := 0, status := "", limit := 0, offset := -5 }).2.2
      (by norm_num)).2⟩

/-- C10: a strictly negative limit is not normalized — only 0 and values
above 100 are reset to 20 — so it reaches the LIMIT clause unchanged, where
gorm drops the clause for negative arguments: every row past the offset is
returned, with no cap of 20. -/
theorem getAll_negative_limit_uncapped (tbl : List Transaction)
    (f : TransactionFilters) (h : f.limit < 0) :
    effectiveLimit f.limit = f.limit ∧
    getAllRepo tbl f =
      applyOffsetClause (effectiveOffset f.offset)
        (orderByCreatedAtDesc (tbl.filter (matchesFilters f))) := by
  have he : effectiveLimit f.limit = f.limit := by
    unfold effectiveLimit
    split
    · rename_i hc
      exfalso
      simp at hc
      omega
    · rfl
  refine ⟨he, ?_⟩
  unfold getAllRepo
  rw [he]
  unfold applyLimitClause
  rw [if_pos h]

/-- C10 witness: on the 25-row table, limit -1 comes through unchanged and
all 25 rows are returned — more than the default cap of 20. -/
theorem getAll_negative_limit_uncapped_witness :
    effectiveLimit (-1) = -1 ∧
    (getAllRepo tbl25
      { userId := 0, status := "", limit := -1, offset := 0 }).length = 25 :=
  ⟨(getAll_negative_limit_uncapped tbl25
      { userId := 0, status := "", limit := -1, offset := 0 }
      (by norm_num)).1,
   by decide⟩

/-- The group count of a user is the multiplicity of its user id in the
projected id list. -/
theorem userTransactionCount_eq_count (tbl : List Transaction) (u : Nat) :
    userTransactionCount tbl u = (tbl.map Transaction.userId).count u := by
  induction tbl with
  | nil => rfl
  | cons t ts ih =>
      by_cases h : t.userId = u
      · simp [userTransactionCount, List.filter_cons, List.count_cons, h] at *
        omega
      · simp [userTransactionCount, List.filter_cons, List.count_cons, h] at *
        exact ih

/-- Summing the multiplicities of the deduplicated elements (as rationals)
gives the length of the list. -/
theorem sum_counts_cast (L : List Nat) :
    ((L.dedup).map (fun u => (L.count u : Rat))).sum = (L.length : Rat) := by
  calc ((L.dedup).map (fun u => (L.count u : Rat))).sum
      = ((L.dedup.map (fun u => L.count u)).map (fun n : Nat => (n : Rat))).sum := by
        rw [List.map_map]
        rfl
    _ = ((L.dedup.map (fun u => L.count u)).sum : Rat) :=
        (Nat.cast_list_sum _).symm
    _ = (L.length : Rat) := by
        rw [List.sum_map_count_dedup_eq_length]

/-- C7: the SQL average computed by `GetAveragePerUser` — the exact mean of
the per-distinct-user transaction counts — equals the total row count
divided by the distinct user count, and is 0 on the empty table. -/
theorem getAveragePerUser_refines_spec (tbl : List Transaction) :
    getAveragePerUserRepo tbl = averagePerUserSpec tbl := by
  have hcount : (fun u => (userTransactionCount tbl u : Rat)) =
      fun u => (((tbl.map Transaction.userId).count u : Nat) : Rat) := by
    funext u
    rw [userTransactionCount_eq_count]
  simp only [getAveragePerUserRepo, averagePerUserSpec, userIds]
  by_cases h : tbl = []
  · subst h
    rfl
  · have hne : ¬ tbl.length = 0 := by
      simpa [List.length_eq_zero] using h
    have hd : ¬ (tbl.map Transaction.userId).dedup = [] := by
      simpa [List.dedup_eq_nil, List.map_eq_nil_iff] using h
    have hdl : ¬ ((tbl.map Transaction.userId).dedup.map
        (fun u => (userTransactionCount tbl u : Rat))).length = 0 := by
      simpa [List.length_map, List.length_eq_zero] using hd
    rw [if_neg hdl, if_neg hne, List.length_map, hcount, sum_counts_cast,
      List.length_map]

/-- C9: with a valid status (the current status included) and an existing
transaction, `UpdateTransactionStatus` succeeds, issuing exactly one
`Update` whose field set is the single entry ("status", status); at the
table level that update leaves id, user_id, amount and created_at of every
row unchanged and sets the status of the target row. -/
theorem updateStatus_only_touches_status (repo : Repo) (id : Nat)
    (status : String) (t : Transaction) (tbl : List Transaction) (now : Nat)
    (hs : status = "pending" ∨ status = "success" ∨ status = "failed")
    (hget : repo.getByID id = .ok t)
    (hupd : repo.update id [("status", status)] = .ok ()) :
    updateTransactionStatus repo id status =
      (.ok (), [RepoCall.getByID id, RepoCall.update id [("status", status)]]) ∧
    (updateRepo tbl id [("status", status)] now).map
        (fun r => (r.id, r.userId, r.amount, r.createdAt)) =
      tbl.map (fun r => (r.id, r.userId, r.amount, r.createdAt)) ∧
    ∀ r ∈ updateRepo tbl id [("status", status)] now,
      r.id = id → r.status = status := by
  refine ⟨?_, ?_, ?_⟩
  · rcases hs with h | h | h <;> subst h <;>
      simp [updateTransactionStatus, hget, hupd]
  · induction tbl with
    | nil => rfl
    | cons r rs ih =>
        by_cases h : r.id = id
        · simp only [updateRepo, List.map_cons] at *
          rw [ih]
          simp [applyUpdateFields, applyUpdateField, h]
        · simp only [updateRepo, List.map_cons] at *
          rw [ih]
          simp [h]
  · intro r hr hid
    unfold updateRepo at hr
    rw [List.mem_map] at hr
    obtain ⟨r0, hr0, rfl⟩ := hr
    by_cases h : r0.id = id
    · simp [h, applyUpdateFields, applyUpdateField]
    · simp [h] at hid

/-- C9 witness: updating transaction 9 (current status "success") to
"success" again succeeds with the single-field update, and the updated
table keeps id, user_id, amount and created_at of every row. -/
theorem updateStatus_only_touches_status_witness :
    updateTransactionStatus okRepo 9 ("success") =
      (.ok (), [RepoCall.getByID 9, RepoCall.update 9 [("status", "success")]]) ∧
    (updateRepo [txEx] 9 [("status", "success")] 2).map
        (fun r => (r.id, r.userId, r.amount, r.createdAt)) =
      [txEx].map (fun r => (r.id, r.userId, r.amount, r.createdAt)) := by
  have h := updateStatus_only_touches_status okRepo 9 ("success") txEx [txEx] 2
    (Or.inr (Or.inl rfl)) rfl rfl
  exact ⟨h.1, h.2.1⟩

end Trxgo
